import Mathlib

/-!
Shallow embedding of the core purchase pipeline of parque_aventura.py
(ConfiguracionParque, Usuario, Compra, and the card-payment window logic).
Python dates are modelled by a year/month/day structure with the proleptic
Gregorian ordinal, exactly as CPython's datetime computes it; `weekday`
follows CPython: (toordinal + 6) % 7, 0 = Monday. Python ints are Int,
Python lists are List, the user-store and the mail notifier are parameters
(they live outside this repository, in the `database` module and smtplib).
The ASCII core of the regex classes \w and of str.isdigit is used for
characters; all inputs considered in the theorems and witnesses are ASCII.
-/

namespace ParqueAventura

/-- Calendar date, as CPython's datetime.date (year, month, day). -/
structure Fecha where
  year : Nat
  month : Nat
  day : Nat
  deriving DecidableEq

/-- Leap year, as CPython datetime._is_leap. -/
def esBisiesto (y : Nat) : Bool :=
  y % 4 == 0 && (y % 100 != 0 || y % 400 == 0)

/-- Days before January 1st of the given year, as CPython _days_before_year. -/
def diasAntesDeAnio (y : Nat) : Nat :=
  (y - 1) * 365 + (y - 1) / 4 - (y - 1) / 100 + (y - 1) / 400

/-- Days before the first of the given month in a non-leap year. -/
def diasPreviosAlMes (m : Nat) : Nat :=
  match m with
  | 1 => 0
  | 2 => 31
  | 3 => 59
  | 4 => 90
  | 5 => 120
  | 6 => 151
  | 7 => 181
  | 8 => 212
  | 9 => 243
  | 10 => 273
  | 11 => 304
  | 12 => 334
  | _ => 0

/-- Proleptic Gregorian ordinal of a date, as CPython date.toordinal. -/
def Fecha.toordinal (f : Fecha) : Nat :=
  diasAntesDeAnio f.year + diasPreviosAlMes f.month
    + (if 2 < f.month && esBisiesto f.year then 1 else 0) + f.day

/-- Weekday (0 = Monday .. 6 = Sunday), as CPython date.weekday. -/
def Fecha.weekday (f : Fecha) : Nat :=
  (f.toordinal + 6) % 7

/-- Date comparison a <= b; CPython compares (year, month, day) lexicographically. -/
def Fecha.le (a b : Fecha) : Bool :=
  decide (a.year < b.year ∨ (a.year = b.year ∧
    (a.month < b.month ∨ (a.month = b.month ∧ a.day ≤ b.day))))

/-- Left-pad a string with zeros to the given width, as the %04d / %02d of date.isoformat. -/
def rellenarCeros (w : Nat) (s : String) : String :=
  String.mk (List.replicate (w - s.length) '0') ++ s

/-- str(date): ISO format YYYY-MM-DD. -/
def Fecha.toStr (f : Fecha) : String :=
  rellenarCeros 4 (toString f.year) ++ "-" ++ rellenarCeros 2 (toString f.month)
    ++ "-" ++ rellenarCeros 2 (toString f.day)

/-- ConfiguracionParque.DIAS_ABIERTOS: Monday..Saturday open, Sunday (6) closed. -/
def ConfiguracionParque.DIAS_ABIERTOS : List Nat := [0, 1, 2, 3, 4, 5]

/-- ConfiguracionParque.PRECIOS, the dict as an association list in source order. -/
def ConfiguracionParque.PRECIOS : List (String × Int) :=
  [("regular", 10000), ("VIP", 15000)]

/-- ConfiguracionParque.CANTIDAD_MAX_ENTRADAS. -/
def ConfiguracionParque.CANTIDAD_MAX_ENTRADAS : Int := 10

/-- ConfiguracionParque.CANTIDAD_MIN_ENTRADAS. -/
def ConfiguracionParque.CANTIDAD_MIN_ENTRADAS : Int := 1

/-- class Usuario: email plus the registrado flag. -/
structure Usuario where
  email : String
  registrado : Bool
  deriving DecidableEq

/-- A row of the usuarios table returned by database.buscar_usuario_por_email. -/
structure RegistroUsuario where
  email : String
  nombre : String
  password_hash : String
  deriving DecidableEq

/-- ASCII core of the regex class \w: letters, digits, underscore. -/
def esCaracterPalabra (c : Char) : Bool :=
  c.isAlphanum || c == '_'

/-- The regex character class [\w\.-]: word characters, dot, hyphen. -/
def esCaracterLocal (c : Char) : Bool :=
  esCaracterPalabra c || c == '.' || c == '-'

/-- Match of the anchored core pattern [\w\.-]+@[\w\.-]+\.\w+ against a whole
character list. Both classes exclude the at sign, so the local part must be
everything before the first at sign; \w excludes the dot, so the final dot of
the part after the at sign must be the separating dot before the TLD. -/
def coincideNucleo (cs : List Char) : Bool :=
  let l := cs.takeWhile (fun c => c != '@')
  match cs.drop l.length with
  | [] => false
  | _ :: r =>
    !l.isEmpty && l.all esCaracterLocal &&
      (let tld := (r.reverse.takeWhile (fun c => c != '.')).reverse
       let mid := r.take (r.length - tld.length - 1)
       decide (tld.length < r.length) && !tld.isEmpty && tld.all esCaracterPalabra &&
         !mid.isEmpty && mid.all esCaracterLocal)

/-- re.match of the pattern of Usuario.desde_la_sesion. The final anchor of the
Python pattern also matches just before one trailing newline; a newline can
occur nowhere else in a match, so stripping one trailing newline first is
equivalent. -/
def reMatchEmail (s : String) : Bool :=
  let cs := s.data
  coincideNucleo (if cs.getLast? == some '\n' then cs.dropLast else cs)

/-- Usuario.desde_la_sesion: the store lookup is a parameter, the code of
buscar_usuario_por_email lives outside this repository. -/
def Usuario.desde_la_sesion (buscar_usuario_por_email : String → Option RegistroUsuario)
    (email : String) : Usuario :=
  if email = "" || !reMatchEmail email then ⟨email, false⟩
  else ⟨email, (buscar_usuario_por_email email).isSome⟩

/-- Modelled from the spec: the email pattern as the claim describes it,
word/dot/hyphen characters before the at sign, word/dot characters (no
hyphen) after it, at least one dot there, and a non-empty word-character
TLD. Kept separate from reMatchEmail, which follows the source regex, so
the two readings can be compared. -/
def patronEmailSegunSpec (s : String) : Bool :=
  let cs := s.data
  let l := cs.takeWhile (fun c => c != '@')
  match cs.drop l.length with
  | [] => false
  | _ :: r =>
    !l.isEmpty && l.all esCaracterLocal &&
      (let tld := (r.reverse.takeWhile (fun c => c != '.')).reverse
       let mid := r.take (r.length - tld.length - 1)
       decide (tld.length < r.length) && !tld.isEmpty && tld.all esCaracterPalabra &&
         !mid.isEmpty && mid.all (fun c => esCaracterPalabra c || c == '.'))

/-- class Compra: the order draft plus its accumulated error list. The
usuario field is optional because the validation guards against None. -/
structure Compra where
  usuario : Option Usuario
  fecha_visita : Fecha
  cantidad : Int
  edades : List Int
  tipo_pase : String
  forma_pago : String
  errores : List String
  deriving DecidableEq

/-- Condition of Compra._validar_usuario: requester absent or not registered. -/
def usuarioInvalido (c : Compra) : Bool :=
  match c.usuario with
  | none => true
  | some u => !u.registrado

/-- Condition of Compra._validar_fecha: not (today <= visit date and open weekday). -/
def fechaInvalida (hoy : Fecha) (c : Compra) : Bool :=
  !(Fecha.le hoy c.fecha_visita &&
    ConfiguracionParque.DIAS_ABIERTOS.contains c.fecha_visita.weekday)

/-- Condition of Compra._validar_cantidad: quantity outside the configured bounds. -/
def cantidadInvalida (c : Compra) : Bool :=
  !decide (ConfiguracionParque.CANTIDAD_MIN_ENTRADAS ≤ c.cantidad ∧
    c.cantidad ≤ ConfiguracionParque.CANTIDAD_MAX_ENTRADAS)

/-- Condition of Compra._validar_edades: empty list or length different from quantity. -/
def edadesInvalidas (c : Compra) : Bool :=
  decide (c.edades = [] ∨ (c.edades.length : Int) ≠ c.cantidad)

/-- Condition of Compra._validar_forma_pago: payment method outside the two options. -/
def formaPagoInvalida (c : Compra) : Bool :=
  decide (c.forma_pago ∉ ["efectivo", "tarjeta"])

/-- Message appended by Compra._validar_usuario. -/
def mensajeUsuario : String := "El usuario no es válido o no está registrado."

/-- Message appended by Compra._validar_fecha. -/
def mensajeFecha : String := "La fecha no es válida o el parque está cerrado."

/-- Message appended by Compra._validar_cantidad (f-string over the config bounds). -/
def mensajeCantidad : String :=
  "Cantidad de entradas inválida (debe ser entre "
    ++ toString ConfiguracionParque.CANTIDAD_MIN_ENTRADAS ++ " y "
    ++ toString ConfiguracionParque.CANTIDAD_MAX_ENTRADAS ++ ")."

/-- Message appended by Compra._validar_edades. -/
def mensajeEdades : String := "Debe indicar la edad de cada visitante."

/-- Message appended by Compra._validar_forma_pago. -/
def mensajeFormaPago : String := "Debe seleccionar una forma de pago válida."

/-- Compra._validar_usuario, as a state transformer on the draft. -/
def Compra.validar_usuario (c : Compra) : Compra :=
  if usuarioInvalido c then {c with errores := c.errores ++ [mensajeUsuario]} else c

/-- Compra._validar_fecha. -/
def Compra.validar_fecha (hoy : Fecha) (c : Compra) : Compra :=
  if fechaInvalida hoy c then {c with errores := c.errores ++ [mensajeFecha]} else c

/-- Compra._validar_cantidad. -/
def Compra.validar_cantidad (c : Compra) : Compra :=
  if cantidadInvalida c then {c with errores := c.errores ++ [mensajeCantidad]} else c

/-- Compra._validar_edades. -/
def Compra.validar_edades (c : Compra) : Compra :=
  if edadesInvalidas c then {c with errores := c.errores ++ [mensajeEdades]} else c

/-- Compra._validar_forma_pago. -/
def Compra.validar_forma_pago (c : Compra) : Compra :=
  if formaPagoInvalida c then {c with errores := c.errores ++ [mensajeFormaPago]} else c

/-- Compra.es_valida: clears errores, runs the five checks in order, and
returns whether the resulting list is empty together with the updated draft
(the draft mutation of the Python method made explicit). -/
def Compra.es_valida (hoy : Fecha) (c : Compra) : Bool × Compra :=
  let c5 := ((((({c with errores := []}).validar_usuario).validar_fecha hoy).validar_cantidad).validar_edades).validar_forma_pago
  (c5.errores.isEmpty, c5)

/-- Compra.calcular_monto_total: quantity times PRECIOS.get(tipo_pase, 0). -/
def Compra.calcular_monto_total (c : Compra) : Int :=
  let precio_unitario := (ConfiguracionParque.PRECIOS.lookup c.tipo_pase).getD 0
  c.cantidad * precio_unitario

/-- The requester email read by Compra.procesar; procesar only reaches this
access after validation has passed, which guarantees the usuario is present. -/
def Compra.email_del_usuario (c : Compra) : String :=
  match c.usuario with
  | some u => u.email
  | none => ""

/-- The dict returned by Compra.procesar. -/
structure Resultado where
  ok : Bool
  mensaje : String
  deriving DecidableEq

/-- Compra.procesar: validate, then either join the errors with single spaces
or build the confirmation message with the payment-method suffix. -/
def Compra.procesar (hoy : Fecha) (c : Compra) : Resultado × Compra :=
  let par := c.es_valida hoy
  if !par.1 then (⟨false, String.intercalate (" ") par.2.errores⟩, par.2)
  else
    let total := par.2.calcular_monto_total
    let mensaje := "Compra confirmada para " ++ par.2.email_del_usuario ++ ": "
      ++ toString par.2.cantidad ++ " entradas para el " ++ par.2.fecha_visita.toStr
      ++ " por $" ++ toString total ++ "."
    let mensaje := if par.2.forma_pago = "tarjeta"
      then mensaje ++ " Redirigiendo a Mercado Pago..."
      else mensaje ++ " Pago en boletería."
    (⟨true, mensaje⟩, par.2)

/-- The five entry fields of VentanaPagoTarjeta, as raw strings. -/
structure CamposTarjeta where
  nombre : String
  tarjeta : String
  mes : String
  anio : String
  cvv : String
  deriving DecidableEq

/-- str.isdigit (ASCII core): non-empty and all decimal digits. -/
def esNumerica (s : String) : Bool :=
  !s.data.isEmpty && s.data.all Char.isDigit

/-- int() applied to a string of decimal digits. -/
def aEntero (s : String) : Nat :=
  s.data.foldl (fun n c => 10 * n + (c.toNat - 48)) 0

/-- First check of VentanaPagoTarjeta._validar_campos: missing or short name
(the emptiness test is subsumed by the length test). -/
def nombreInvalido (f : CamposTarjeta) : Bool :=
  decide (f.nombre.length < 3)

/-- Second check: card number not 16 numeric digits. -/
def tarjetaInvalida (f : CamposTarjeta) : Bool :=
  !esNumerica f.tarjeta || decide (f.tarjeta.length ≠ 16)

/-- Third check: month entry not numeric. -/
def mesNoNumerico (f : CamposTarjeta) : Bool :=
  !esNumerica f.mes

/-- Fourth check: month outside 1..12. -/
def mesFueraDeRango (f : CamposTarjeta) : Bool :=
  !decide (1 ≤ aEntero f.mes ∧ aEntero f.mes ≤ 12)

/-- Fifth check: year entry not 4 numeric digits. -/
def anioInvalido (f : CamposTarjeta) : Bool :=
  !esNumerica f.anio || decide (f.anio.length ≠ 4)

/-- Sixth check: expiry month/year strictly before the current month/year. -/
def tarjetaVencida (hoy : Fecha) (f : CamposTarjeta) : Bool :=
  decide (aEntero f.anio < hoy.year ∨
    (aEntero f.anio = hoy.year ∧ aEntero f.mes < hoy.month))

/-- Seventh check: CVV not 3 numeric digits. -/
def cvvInvalido (f : CamposTarjeta) : Bool :=
  !esNumerica f.cvv || decide (f.cvv.length ≠ 3)

/-- VentanaPagoTarjeta._validar_campos: fail-fast chain returning the first
failing check's message, or (true, "") when every check passes. The
try/except ValueError of the source is unreachable here: every int()
conversion is guarded by an isdigit test, and on ASCII digit strings int()
succeeds. -/
def VentanaPagoTarjeta.validar_campos (hoy : Fecha) (f : CamposTarjeta) : Bool × String :=
  if nombreInvalido f then (false, "Por favor, ingrese su nombre y apellido.")
  else if tarjetaInvalida f then (false, "El número de tarjeta debe tener 16 dígitos numéricos.")
  else if mesNoNumerico f then (false, "El mes debe ser un número.")
  else if mesFueraDeRango f then (false, "El mes de vencimiento debe estar entre 1 y 12.")
  else if anioInvalido f then (false, "El año debe tener 4 dígitos (ej: 2025).")
  else if tarjetaVencida hoy f then (false, "La tarjeta de crédito está vencida.")
  else if cvvInvalido f then (false, "El CVV debe tener 3 dígitos numéricos.")
  else (true, "")

/-- Observable outcome of VentanaPagoTarjeta._procesar_pago: the text put in
the payment-error label, the text inserted in the result box, whether the
notifier was invoked, whether the auto-registration INSERT ran, and the
final state of compra_original. -/
structure ResultadoPago where
  error_label : String
  texto_resultado : String
  notificado : Bool
  registro_insertado : Bool
  compra : Compra
  deriving DecidableEq

/-- str.strip() (ASCII whitespace core): drop leading and trailing whitespace. -/
def recortar (s : String) : String :=
  String.mk (((s.data.dropWhile Char.isWhitespace).reverse.dropWhile
    Char.isWhitespace).reverse)

/-- The notification tail of VentanaPagoTarjeta._procesar_pago: invoke the
notifier and build the success or degraded-success message. The notifier is
a parameter (smtplib transport); its raising branch is outside this model. -/
def VentanaPagoTarjeta.concluir_envio (enviar_correo : String → String → Bool)
    (mensaje_compra entered_email : String) (insertado : Bool) (c : Compra) : ResultadoPago :=
  let enviado := enviar_correo mensaje_compra entered_email
  let mensaje_final :=
    if enviado then
      "✅ ¡Pago con tarjeta procesado con éxito!\n\n" ++ mensaje_compra
        ++ "\n\n📧 Se envió un recibo a " ++ entered_email ++ "."
    else
      "✅ ¡Pago con tarjeta procesado con éxito!\n\n" ++ mensaje_compra
        ++ "\n\n⚠️ No se pudo enviar el email de confirmación a " ++ entered_email ++ "."
  ⟨"", mensaje_final, true, insertado, c⟩

/-- VentanaPagoTarjeta._procesar_pago: card-field validation, order
processing, the receipt-email identity check against a fresh store lookup,
auto-registration with identity promotion on the other branch, and the
notification tail. The store lookup and the notifier are parameters. The
none branch on the usuario mirrors the AttributeError that the surrounding
try/except would turn into the generic verification-failure message; it is
unreachable once procesar has succeeded. -/
def VentanaPagoTarjeta.procesar_pago (hoy : Fecha) (campos : CamposTarjeta)
    (email_ingresado : String)
    (buscar_usuario_por_email : String → Option RegistroUsuario)
    (enviar_correo : String → String → Bool) (c : Compra) : ResultadoPago :=
  let val := VentanaPagoTarjeta.validar_campos hoy campos
  if !val.1 then ⟨"⚠️ " ++ val.2, "", false, false, c⟩
  else
    let entered_email := recortar email_ingresado
    let par := c.procesar hoy
    if !par.1.ok then ⟨"", par.1.mensaje, false, false, par.2⟩
    else
      match par.2.usuario with
      | none => ⟨"", "❌ Error al verificar/registrar email.", false, false, par.2⟩
      | some u =>
        let db_row := buscar_usuario_por_email u.email
        if u.registrado && db_row.isSome then
          if entered_email ≠ u.email then
            ⟨"", "❌ El email ingresado (" ++ entered_email
              ++ ") no coincide con el usuario registrado (" ++ u.email
              ++ ").\nNo se puede enviar el recibo.", false, false, par.2⟩
          else
            VentanaPagoTarjeta.concluir_envio enviar_correo par.1.mensaje entered_email false par.2
        else
          let c2 := {par.2 with usuario := some ⟨entered_email, true⟩}
          VentanaPagoTarjeta.concluir_envio enviar_correo par.1.mensaje entered_email true c2

/-- Contribution of the identity check to the error list. -/
def chequeoUsuario (c : Compra) : List String :=
  if usuarioInvalido c then [mensajeUsuario] else []

/-- Contribution of the date check to the error list. -/
def chequeoFecha (hoy : Fecha) (c : Compra) : List String :=
  if fechaInvalida hoy c then [mensajeFecha] else []

/-- Contribution of the quantity check to the error list. -/
def chequeoCantidad (c : Compra) : List String :=
  if cantidadInvalida c then [mensajeCantidad] else []

/-- Contribution of the ages check to the error list. -/
def chequeoEdades (c : Compra) : List String :=
  if edadesInvalidas c then [mensajeEdades] else []

/-- Contribution of the payment-method check to the error list. -/
def chequeoFormaPago (c : Compra) : List String :=
  if formaPagoInvalida c then [mensajeFormaPago] else []

/-- The full error list of one validation run, checks in source order. -/
def erroresCalculados (hoy : Fecha) (c : Compra) : List String :=
  chequeoUsuario c ++ chequeoFecha hoy c ++ chequeoCantidad c ++ chequeoEdades c
    ++ chequeoFormaPago c

theorem errores_set (c : Compra) (e : List String) :
    ({c with errores := e} : Compra).errores = e := rfl

theorem set_errores_set (c : Compra) (e e' : List String) :
    ({({c with errores := e} : Compra) with errores := e'} : Compra)
      = {c with errores := e'} := rfl

theorem chequeoUsuario_set (c : Compra) (e : List String) :
    chequeoUsuario {c with errores := e} = chequeoUsuario c := rfl

theorem chequeoFecha_set (hoy : Fecha) (c : Compra) (e : List String) :
    chequeoFecha hoy {c with errores := e} = chequeoFecha hoy c := rfl

theorem chequeoCantidad_set (c : Compra) (e : List String) :
    chequeoCantidad {c with errores := e} = chequeoCantidad c := rfl

theorem chequeoEdades_set (c : Compra) (e : List String) :
    chequeoEdades {c with errores := e} = chequeoEdades c := rfl

theorem chequeoFormaPago_set (c : Compra) (e : List String) :
    chequeoFormaPago {c with errores := e} = chequeoFormaPago c := rfl

theorem validar_usuario_eq (c : Compra) :
    c.validar_usuario = {c with errores := c.errores ++ chequeoUsuario c} := by
  unfold Compra.validar_usuario chequeoUsuario
  cases h : usuarioInvalido c <;> simp [h]

theorem validar_fecha_eq (hoy : Fecha) (c : Compra) :
    c.validar_fecha hoy = {c with errores := c.errores ++ chequeoFecha hoy c} := by
  unfold Compra.validar_fecha chequeoFecha
  cases h : fechaInvalida hoy c <;> simp [h]

theorem validar_cantidad_eq (c : Compra) :
    c.validar_cantidad = {c with errores := c.errores ++ chequeoCantidad c} := by
  unfold Compra.validar_cantidad chequeoCantidad
  cases h : cantidadInvalida c <;> simp [h]

theorem validar_edades_eq (c : Compra) :
    c.validar_edades = {c with errores := c.errores ++ chequeoEdades c} := by
  unfold Compra.validar_edades chequeoEdades
  cases h : edadesInvalidas c <;> simp [h]

theorem validar_forma_pago_eq (c : Compra) :
    c.validar_forma_pago = {c with errores := c.errores ++ chequeoFormaPago c} := by
  unfold Compra.validar_forma_pago chequeoFormaPago
  cases h : formaPagoInvalida c <;> simp [h]

theorem es_valida_snd (hoy : Fecha) (c : Compra) :
    (c.es_valida hoy).2 = {c with errores := erroresCalculados hoy c} := by
  simp only [Compra.es_valida, validar_usuario_eq, validar_fecha_eq, validar_cantidad_eq,
    validar_edades_eq, validar_forma_pago_eq, set_errores_set, errores_set,
    chequeoUsuario_set, chequeoFecha_set, chequeoCantidad_set, chequeoEdades_set,
    chequeoFormaPago_set, List.nil_append, erroresCalculados]

theorem es_valida_fst (hoy : Fecha) (c : Compra) :
    (c.es_valida hoy).1 = (erroresCalculados hoy c).isEmpty := by
  have h : (c.es_valida hoy).1 = ((c.es_valida hoy).2).errores.isEmpty := rfl
  rw [h, es_valida_snd]

theorem procesar_snd (hoy : Fecha) (c : Compra) :
    (c.procesar hoy).2 = (c.es_valida hoy).2 := by
  simp only [Compra.procesar]
  split <;> rfl

/-- C1: Compra.es_valida runs the identity, date, quantity, ages and
payment-method checks in exactly this fixed order, each contributing at most
one message, every check independent of the earlier ones, so the error list
of a draft is always the concatenation of the five per-check contributions
in that fixed order. -/
theorem es_valida_cinco_chequeos_en_orden (hoy : Fecha) (c : Compra) :
    (c.es_valida hoy).2.errores =
      chequeoUsuario c ++ chequeoFecha hoy c ++ chequeoCantidad c ++ chequeoEdades c
        ++ chequeoFormaPago c
    ∧ (chequeoUsuario c).length ≤ 1 ∧ (chequeoFecha hoy c).length ≤ 1
    ∧ (chequeoCantidad c).length ≤ 1 ∧ (chequeoEdades c).length ≤ 1
    ∧ (chequeoFormaPago c).length ≤ 1 := by
  refine ⟨by rw [es_valida_snd]; rfl, ?_, ?_, ?_, ?_, ?_⟩
  · unfold chequeoUsuario; split <;> simp
  · unfold chequeoFecha; split <;> simp
  · unfold chequeoCantidad; split <;> simp
  · unfold chequeoEdades; split <;> simp
  · unfold chequeoFormaPago; split <;> simp

theorem es_valida_set_errores (hoy : Fecha) (c : Compra) (e : List String) :
    ({c with errores := e} : Compra).es_valida hoy = c.es_valida hoy := rfl

/-- C5: the error list is recomputed from scratch on each run: re-running
es_valida on the draft returned by a run gives exactly the same result as
the first run (so any number of successive calls equals a single run), and
es_valida returns true exactly when the recomputed list is empty. -/
theorem es_valida_recalcula_sin_acumular (hoy : Fecha) (c : Compra) :
    ((c.es_valida hoy).2).es_valida hoy = c.es_valida hoy
    ∧ ((c.es_valida hoy).1 = true ↔ (c.es_valida hoy).2.errores = []) := by
  constructor
  · rw [es_valida_snd, es_valida_set_errores]
  · have h : (c.es_valida hoy).1 = ((c.es_valida hoy).2).errores.isEmpty := rfl
    rw [h, List.isEmpty_iff]

/-- C10: validation and processing mutate only the errores field: the
usuario, fecha_visita, cantidad, edades, tipo_pase and forma_pago fields of
the draft returned by es_valida and by procesar are those of the input
draft. -/
theorem compra_solo_muta_errores (hoy : Fecha) (c : Compra) :
    ((c.es_valida hoy).2.usuario = c.usuario
      ∧ (c.es_valida hoy).2.fecha_visita = c.fecha_visita
      ∧ (c.es_valida hoy).2.cantidad = c.cantidad
      ∧ (c.es_valida hoy).2.edades = c.edades
      ∧ (c.es_valida hoy).2.tipo_pase = c.tipo_pase
      ∧ (c.es_valida hoy).2.forma_pago = c.forma_pago)
    ∧ ((c.procesar hoy).2.usuario = c.usuario
      ∧ (c.procesar hoy).2.fecha_visita = c.fecha_visita
      ∧ (c.procesar hoy).2.cantidad = c.cantidad
      ∧ (c.procesar hoy).2.edades = c.edades
      ∧ (c.procesar hoy).2.tipo_pase = c.tipo_pase
      ∧ (c.procesar hoy).2.forma_pago = c.forma_pago) := by
  rw [procesar_snd, es_valida_snd]
  exact ⟨⟨rfl, rfl, rfl, rfl, rfl, rfl⟩, ⟨rfl, rfl, rfl, rfl, rfl, rfl⟩⟩

/-- C2: when validation leaves at least one error, procesar returns ok false
with the error messages joined by single spaces, together with the draft as
updated by the validation run; the function is total, so every failure path
resolves to a returned result. -/
theorem procesar_con_errores (hoy : Fecha) (c : Compra)
    (h : (c.es_valida hoy).1 = false) :
    c.procesar hoy =
      (⟨false, String.intercalate (" ") ((c.es_valida hoy).2.errores)⟩,
        (c.es_valida hoy).2) := by
  simp [Compra.procesar, h]

theorem usuario_set (c : Compra) (e : List String) :
    ({c with errores := e} : Compra).usuario = c.usuario := rfl

theorem fecha_visita_set (c : Compra) (e : List String) :
    ({c with errores := e} : Compra).fecha_visita = c.fecha_visita := rfl

theorem cantidad_set (c : Compra) (e : List String) :
    ({c with errores := e} : Compra).cantidad = c.cantidad := rfl

theorem forma_pago_set (c : Compra) (e : List String) :
    ({c with errores := e} : Compra).forma_pago = c.forma_pago := rfl

theorem email_del_usuario_set (c : Compra) (e : List String) :
    ({c with errores := e} : Compra).email_del_usuario = c.email_del_usuario := rfl

theorem calcular_monto_total_set (c : Compra) (e : List String) :
    ({c with errores := e} : Compra).calcular_monto_total = c.calcular_monto_total := rfl

/-- The confirmation message Compra.procesar builds on the success path. -/
def mensajeConfirmacion (c : Compra) : String :=
  "Compra confirmada para " ++ c.email_del_usuario ++ ": " ++ toString c.cantidad
    ++ " entradas para el " ++ c.fecha_visita.toStr ++ " por $"
    ++ toString c.calcular_monto_total ++ "."
    ++ (if c.forma_pago = "tarjeta" then " Redirigiendo a Mercado Pago..."
        else " Pago en boletería.")

theorem procesar_fst_valida (hoy : Fecha) (c : Compra)
    (h : (c.es_valida hoy).1 = true) :
    (c.procesar hoy).1 = ⟨true, mensajeConfirmacion c⟩ := by
  have hpair : c.es_valida hoy = (true, {c with errores := erroresCalculados hoy c}) :=
    Prod.ext_iff.mpr ⟨h, es_valida_snd hoy c⟩
  simp [Compra.procesar, hpair, mensajeConfirmacion, email_del_usuario_set,
    cantidad_set, fecha_visita_set, calcular_monto_total_set, forma_pago_set]
  split <;> rfl

theorem infijo_mono (a : String) {b t : String} (h : b.data <:+: t.data) :
    b.data <:+: (a ++ t).data := by
  rw [String.data_append]
  obtain ⟨x, y, hxy⟩ := h
  exact ⟨a.data ++ x, y, by rw [← hxy]; simp⟩

theorem infijo_pref (b t : String) : b.data <:+: (b ++ t).data := by
  rw [String.data_append]
  exact ⟨[], t.data, by simp⟩

theorem mensajeConfirmacion_assoc (c : Compra) :
    mensajeConfirmacion c =
      "Compra confirmada para " ++ (c.email_del_usuario ++ (": " ++ (toString c.cantidad
        ++ (" entradas para el " ++ (c.fecha_visita.toStr ++ (" por $"
        ++ (toString c.calcular_monto_total ++ ("."
        ++ (if c.forma_pago = "tarjeta" then " Redirigiendo a Mercado Pago..."
            else " Pago en boletería."))))))))) := by
  simp [mensajeConfirmacion, String.append_assoc]

/-- Today used by the concrete scenarios: Monday 2026-10-12, an open weekday. -/
def hoyLunes : Fecha := ⟨2026, 10, 12⟩

/-- Scenario draft: registered user, next open weekday (Tuesday 2026-10-13),
two tickets, ages 30 and 40, regular pass, cash. -/
def compraEscenarioUno : Compra :=
  ⟨some ⟨"ana@mail.com", true⟩, ⟨2026, 10, 13⟩, 2, [30, 40], "regular", "efectivo", []⟩

/-- The scenario draft with the requester removed: validation must fail. -/
def compraSinUsuario : Compra := {compraEscenarioUno with usuario := none}

/-- The scenario draft with a VIP pass and three tickets. -/
def compraVIPTres : Compra :=
  {compraEscenarioUno with tipo_pase := "VIP", cantidad := 3, edades := [30, 40, 50]}

/-- The scenario draft with a pass type absent from the price table. -/
def compraPasePremium : Compra := {compraEscenarioUno with tipo_pase := "premium"}

theorem procesar_con_errores_witness :
    compraSinUsuario.procesar hoyLunes =
      (⟨false, "El usuario no es válido o no está registrado."⟩,
        {compraSinUsuario with
          errores := ["El usuario no es válido o no está registrado."]}) := by
  rw [procesar_con_errores hoyLunes compraSinUsuario (by decide)]
  decide

/-- C3: when validation passes, procesar returns ok true and the confirmation
message built from the requester email, the quantity, the visit date and the
total price, followed by the gateway-redirect suffix for card payment and the
pay-at-counter suffix otherwise; each of the four pieces of data occurs in
the message. -/
theorem procesar_valida_confirma (hoy : Fecha) (c : Compra)
    (h : (c.es_valida hoy).1 = true) :
    (c.procesar hoy).1.ok = true
    ∧ (c.procesar hoy).1.mensaje =
        "Compra confirmada para " ++ c.email_del_usuario ++ ": " ++ toString c.cantidad
          ++ " entradas para el " ++ c.fecha_visita.toStr ++ " por $"
          ++ toString c.calcular_monto_total ++ "."
          ++ (if c.forma_pago = "tarjeta" then " Redirigiendo a Mercado Pago..."
              else " Pago en boletería.")
    ∧ (c.email_del_usuario).data <:+: ((c.procesar hoy).1.mensaje).data
    ∧ (toString c.cantidad).data <:+: ((c.procesar hoy).1.mensaje).data
    ∧ (c.fecha_visita.toStr).data <:+: ((c.procesar hoy).1.mensaje).data
    ∧ (toString c.calcular_monto_total).data <:+: ((c.procesar hoy).1.mensaje).data := by
  have hp := procesar_fst_valida hoy c h
  rw [hp]
  refine ⟨rfl, rfl, ?_, ?_, ?_, ?_⟩ <;> rw [show (Resultado.mk true (mensajeConfirmacion c)).mensaje = mensajeConfirmacion c from rfl, mensajeConfirmacion_assoc]
  · exact infijo_mono _ (infijo_pref _ _)
  · exact infijo_mono _ (infijo_mono _ (infijo_mono _ (infijo_pref _ _)))
  · exact infijo_mono _ (infijo_mono _ (infijo_mono _ (infijo_mono _ (infijo_mono _
      (infijo_pref _ _)))))
  · exact infijo_mono _ (infijo_mono _ (infijo_mono _ (infijo_mono _ (infijo_mono _
      (infijo_mono _ (infijo_mono _ (infijo_pref _ _)))))))

theorem procesar_valida_confirma_witness :
    (compraEscenarioUno.procesar hoyLunes).1.ok = true
    ∧ (compraEscenarioUno.procesar hoyLunes).1.mensaje =
        "Compra confirmada para ana@mail.com: 2 entradas para el 2026-10-13 por $20000. Pago en boletería." :=
  ⟨(procesar_valida_confirma hoyLunes compraEscenarioUno (by decide)).1, by decide⟩

/-- C4: the total is the quantity times the price-table entry for the pass
type, 10000 for regular, 15000 for VIP, and unit price 0 (hence total 0) for
any pass type outside the table, with no error raised. -/
theorem calcular_monto_total_segun_tabla (c : Compra) :
    (c.tipo_pase = "regular" → c.calcular_monto_total = c.cantidad * 10000)
    ∧ (c.tipo_pase = "VIP" → c.calcular_monto_total = c.cantidad * 15000)
    ∧ (c.tipo_pase ≠ "regular" → c.tipo_pase ≠ "VIP" → c.calcular_monto_total = 0) := by
  refine ⟨?_, ?_, ?_⟩
  · intro h
    simp [Compra.calcular_monto_total, ConfiguracionParque.PRECIOS, List.lookup, h]
  · intro h
    simp [Compra.calcular_monto_total, ConfiguracionParque.PRECIOS, List.lookup, h]
  · intro h1 h2
    have e1 : (c.tipo_pase == "regular") = false := beq_eq_false_iff_ne.mpr h1
    have e2 : (c.tipo_pase == "VIP") = false := beq_eq_false_iff_ne.mpr h2
    simp [Compra.calcular_monto_total, ConfiguracionParque.PRECIOS, List.lookup, e1, e2]

theorem calcular_monto_total_segun_tabla_witness :
    compraVIPTres.calcular_monto_total = 45000 := by
  rw [(calcular_monto_total_segun_tabla compraVIPTres).2.1 rfl]
  decide

theorem precio_tipo_desconocido {tp : String} (h1 : tp ≠ "regular") (h2 : tp ≠ "VIP") :
    ConfiguracionParque.PRECIOS.lookup tp = none := by
  have e1 : (tp == "regular") = false := beq_eq_false_iff_ne.mpr h1
  have e2 : (tp == "VIP") = false := beq_eq_false_iff_ne.mpr h2
  simp [ConfiguracionParque.PRECIOS, List.lookup, e1, e2]

theorem monto_cero (c : Compra) (h1 : c.tipo_pase ≠ "regular") (h2 : c.tipo_pase ≠ "VIP") :
    c.calcular_monto_total = 0 := by
  simp [Compra.calcular_monto_total, precio_tipo_desconocido h1 h2]

theorem mensajeConfirmacion_monto_cero (c : Compra) (h0 : c.calcular_monto_total = 0) :
    mensajeConfirmacion c =
      "Compra confirmada para " ++ (c.email_del_usuario ++ (": " ++ (toString c.cantidad
        ++ (" entradas para el " ++ (c.fecha_visita.toStr ++ (" por "
        ++ ("$0." ++ (if c.forma_pago = "tarjeta" then " Redirigiendo a Mercado Pago..."
            else " Pago en boletería.")))))))) := by
  simp only [mensajeConfirmacion, h0,
    show toString (0 : Int) = "0" from rfl,
    show (" por $" : String) = " por " ++ "$" from rfl,
    show ("$0." : String) = "$" ++ "0" ++ "." from rfl,
    String.append_assoc]

/-- C9: none of the five checks reads the pass type, so a draft satisfying
the identity, date, quantity, ages and payment checks is processed with ok
true whatever its pass type, and when the pass type is not a key of the
price table the confirmation message reports a total of $0. -/
theorem tipo_pase_desconocido_procesa (hoy : Fecha) (c : Compra)
    (hu : usuarioInvalido c = false) (hf : fechaInvalida hoy c = false)
    (hc : cantidadInvalida c = false) (he : edadesInvalidas c = false)
    (hp : formaPagoInvalida c = false) :
    (∀ tp : String, (({c with tipo_pase := tp} : Compra).es_valida hoy).1
        = (c.es_valida hoy).1)
    ∧ (c.procesar hoy).1.ok = true
    ∧ (c.tipo_pase ≠ "regular" → c.tipo_pase ≠ "VIP" →
        ("$0.").data <:+: ((c.procesar hoy).1.mensaje).data) := by
  have hval : (c.es_valida hoy).1 = true := by
    rw [es_valida_fst]
    unfold erroresCalculados chequeoUsuario chequeoFecha chequeoCantidad chequeoEdades
      chequeoFormaPago
    simp [hu, hf, hc, he, hp]
  have hproc := procesar_fst_valida hoy c hval
  refine ⟨fun tp => by rw [es_valida_fst, es_valida_fst]; rfl, by rw [hproc], ?_⟩
  intro h1 h2
  rw [hproc, show (Resultado.mk true (mensajeConfirmacion c)).mensaje
      = mensajeConfirmacion c from rfl,
    mensajeConfirmacion_monto_cero c (monto_cero c h1 h2)]
  exact infijo_mono _ (infijo_mono _ (infijo_mono _ (infijo_mono _ (infijo_mono _
    (infijo_mono _ (infijo_mono _ (infijo_pref _ _)))))))

theorem tipo_pase_desconocido_procesa_witness :
    (compraPasePremium.procesar hoyLunes).1.ok = true
    ∧ ("$0.").data <:+: ((compraPasePremium.procesar hoyLunes).1.mensaje).data :=
  ⟨(tipo_pase_desconocido_procesa hoyLunes compraPasePremium (by decide) (by decide)
      (by decide) (by decide) (by decide)).2.1,
   (tipo_pase_desconocido_procesa hoyLunes compraPasePremium (by decide) (by decide)
      (by decide) (by decide) (by decide)).2.2 (by decide) (by decide)⟩

/-- C6, amended: desde_la_sesion is total; when the raw email fails the source
regex (word/dot/hyphen characters before the at sign and, equally, before the
final dot after it, a non-empty word-character TLD, one trailing newline
tolerated by the anchor) the identity is unregistered and independent of the
store, and otherwise the store is queried and registrado is set exactly when
the lookup returns a row. -/
theorem desde_la_sesion_sin_excepcion (buscar : String → Option RegistroUsuario)
    (email : String) :
    (reMatchEmail email = false →
      Usuario.desde_la_sesion buscar email = ⟨email, false⟩)
    ∧ (reMatchEmail email = true →
      Usuario.desde_la_sesion buscar email = ⟨email, (buscar email).isSome⟩) := by
  constructor
  · intro h
    simp [Usuario.desde_la_sesion, h]
  · intro h
    have hne : email ≠ "" := by
      intro he
      rw [he] at h
      exact absurd h (by decide)
    simp [Usuario.desde_la_sesion, h, hne]

theorem desde_la_sesion_sin_excepcion_witness :
    Usuario.desde_la_sesion (fun _ => some ⟨"ana@mail.com", "Ana", "h"⟩) "ana@mail.com"
      = ⟨"ana@mail.com", true⟩ :=
  (desde_la_sesion_sin_excepcion (fun _ => some ⟨"ana@mail.com", "Ana", "h"⟩)
    "ana@mail.com").2 (by decide)

/-- C6, counterexample: the address a@b-c.de fails the pattern as the claim
describes it (no hyphen allowed after the at sign), so the claim predicts an
unregistered identity without a store lookup; the source regex accepts the
hyphen, the store is consulted, and with a store that knows the address the
resulting identity is registered. -/
theorem desde_la_sesion_contraejemplo :
    patronEmailSegunSpec ("a@b-c.de") = false
    ∧ reMatchEmail ("a@b-c.de") = true
    ∧ Usuario.desde_la_sesion (fun _ => some ⟨"a@b-c.de", "X", "h"⟩) "a@b-c.de"
        = ⟨"a@b-c.de", true⟩ := by
  refine ⟨by decide, by decide, ?_⟩
  decide

/-- C7: the card-detail validation checks, in order, the holder name (at
least 3 characters), the 16-digit numeric card number, the numeric expiry
month in 1..12 with a 4-digit numeric year forming a month/year not in the
past, and the 3-digit numeric CVV; it is fail-fast, returning exactly the
first failing check's message, and it reports success with an empty message
exactly when every check passes. -/
theorem validar_campos_primera_falla (hoy : Fecha) (f : CamposTarjeta) :
    ((VentanaPagoTarjeta.validar_campos hoy f).1 = true ↔
      (nombreInvalido f = false ∧ tarjetaInvalida f = false ∧ mesNoNumerico f = false
        ∧ mesFueraDeRango f = false ∧ anioInvalido f = false
        ∧ tarjetaVencida hoy f = false ∧ cvvInvalido f = false))
    ∧ ((VentanaPagoTarjeta.validar_campos hoy f).1 = true ↔
        (VentanaPagoTarjeta.validar_campos hoy f).2 = "")
    ∧ (nombreInvalido f = true →
        VentanaPagoTarjeta.validar_campos hoy f
          = (false, "Por favor, ingrese su nombre y apellido."))
    ∧ (nombreInvalido f = false → tarjetaInvalida f = true →
        VentanaPagoTarjeta.validar_campos hoy f
          = (false, "El número de tarjeta debe tener 16 dígitos numéricos."))
    ∧ (nombreInvalido f = false → tarjetaInvalida f = false → mesNoNumerico f = true →
        VentanaPagoTarjeta.validar_campos hoy f = (false, "El mes debe ser un número."))
    ∧ (nombreInvalido f = false → tarjetaInvalida f = false → mesNoNumerico f = false →
        mesFueraDeRango f = true →
        VentanaPagoTarjeta.validar_campos hoy f
          = (false, "El mes de vencimiento debe estar entre 1 y 12."))
    ∧ (nombreInvalido f = false → tarjetaInvalida f = false → mesNoNumerico f = false →
        mesFueraDeRango f = false → anioInvalido f = true →
        VentanaPagoTarjeta.validar_campos hoy f
          = (false, "El año debe tener 4 dígitos (ej: 2025)."))
    ∧ (nombreInvalido f = false → tarjetaInvalida f = false → mesNoNumerico f = false →
        mesFueraDeRango f = false → anioInvalido f = false → tarjetaVencida hoy f = true →
        VentanaPagoTarjeta.validar_campos hoy f
          = (false, "La tarjeta de crédito está vencida."))
    ∧ (nombreInvalido f = false → tarjetaInvalida f = false → mesNoNumerico f = false →
        mesFueraDeRango f = false → anioInvalido f = false → tarjetaVencida hoy f = false →
        cvvInvalido f = true →
        VentanaPagoTarjeta.validar_campos hoy f
          = (false, "El CVV debe tener 3 dígitos numéricos."))
    ∧ (nombreInvalido f = false → tarjetaInvalida f = false → mesNoNumerico f = false →
        mesFueraDeRango f = false → anioInvalido f = false → tarjetaVencida hoy f = false →
        cvvInvalido f = false →
        VentanaPagoTarjeta.validar_campos hoy f = (true, "")) := by
  cases h1 : nombreInvalido f <;> cases h2 : tarjetaInvalida f
    <;> cases h3 : mesNoNumerico f <;> cases h4 : mesFueraDeRango f
    <;> cases h5 : anioInvalido f <;> cases h6 : tarjetaVencida hoy f
    <;> cases h7 : cvvInvalido f
    <;> simp [VentanaPagoTarjeta.validar_campos, h1, h2, h3, h4, h5, h6, h7]

/-- Card fields that pass all seven checks against hoyLunes. -/
def camposCorrectos : CamposTarjeta :=
  ⟨"Ana Garcia", "1234567890123456", "12", "2030", "123"⟩

theorem validar_campos_primera_falla_witness :
    (VentanaPagoTarjeta.validar_campos hoyLunes camposCorrectos).1 = true :=
  (validar_campos_primera_falla hoyLunes camposCorrectos).1.mpr (by decide)

theorem procesar_usuario (hoy : Fecha) (c : Compra) :
    (c.procesar hoy).2.usuario = c.usuario := by
  rw [procesar_snd, es_valida_snd]

/-- C8: in the card sub-flow, once the card fields validate and the order
processes with ok true, a receipt email different from the registered
requester's email (the store still holding that email) yields the mismatch
failure text, no notifier invocation, no auto-registration insert, and the
draft exactly as the processing run left it. -/
theorem pago_rechaza_email_distinto (hoy : Fecha) (campos : CamposTarjeta)
    (email_ingresado : String) (buscar : String → Option RegistroUsuario)
    (enviar : String → String → Bool) (c : Compra) (u : Usuario)
    (hcampos : (VentanaPagoTarjeta.validar_campos hoy campos).1 = true)
    (hok : (c.procesar hoy).1.ok = true)
    (hu : c.usuario = some u)
    (hreg : u.registrado = true)
    (hdb : (buscar u.email).isSome = true)
    (hne : recortar email_ingresado ≠ u.email) :
    VentanaPagoTarjeta.procesar_pago hoy campos email_ingresado buscar enviar c =
      ⟨"", "❌ El email ingresado (" ++ recortar email_ingresado
        ++ ") no coincide con el usuario registrado (" ++ u.email
        ++ ").\nNo se puede enviar el recibo.", false, false, (c.procesar hoy).2⟩ := by
  have hu2 : (c.procesar hoy).2.usuario = some u := by rw [procesar_usuario, hu]
  simp [VentanaPagoTarjeta.procesar_pago, hcampos, hok, hu2, hreg, hdb, hne]

/-- The card-flow order: the scenario draft paid by card. -/
def compraTarjeta : Compra := {compraEscenarioUno with forma_pago := "tarjeta"}

theorem pago_rechaza_email_distinto_witness :
    VentanaPagoTarjeta.procesar_pago hoyLunes camposCorrectos ("otra@mail.com")
      (fun _ => some ⟨"ana@mail.com", "Ana", "h"⟩) (fun _ _ => true) compraTarjeta =
      ⟨"", "❌ El email ingresado (otra@mail.com) no coincide con el usuario registrado (ana@mail.com).\nNo se puede enviar el recibo.",
        false, false, (compraTarjeta.procesar hoyLunes).2⟩ :=
  pago_rechaza_email_distinto hoyLunes camposCorrectos ("otra@mail.com")
    (fun _ => some ⟨"ana@mail.com", "Ana", "h"⟩) (fun _ _ => true) compraTarjeta
    ⟨"ana@mail.com", true⟩ (by decide) (by decide) rfl rfl (by decide) (by decide)

end ParqueAventura
